import Mathlib

/-!
Verification development for the gpt-todoist FastAPI service (src/main.py).

The service's decision logic is embedded shallowly:
* values produced by Python's `json.loads` are modelled by `Json`
  (floats are modelled as rationals; NaN/Infinity literals are not modelled);
* Python dictionaries are modelled as association lists in insertion order,
  with last-occurrence lookup (`json.loads` keeps the last duplicate key) and
  in-place update on assignment;
* IO is made explicit: the wall clock (`datetime.now()`) becomes a `today`
  parameter (a day number with 1970-01-01 = 0), the OpenAI chat completion and
  the Todoist REST calls become entries of an event trace, and the backend
  response's `json.loads` outcome becomes an `Option Json` parameter
  (`none` when the content is missing/empty or does not parse as JSON);
* a FastAPI `HTTPException` becomes `HandlerResult.httpError`, an unhandled
  Python exception (e.g. `AttributeError` on a non-dict) becomes
  `HandlerResult.pyError`.

The `require_auth` dependency runs before each handler body and is orthogonal
to every property below, so it is not modelled.
-/

namespace GptTodoist

/-- Model of a Python value produced by `json.loads`. -/
inductive Json where
  | null
  | bool (b : Bool)
  | int (n : Int)
  | float (q : ℚ)
  | str (s : String)
  | arr (elems : List Json)
  | obj (fields : List (String × Json))

/-- Python truthiness (`bool(x)`) of a decoded JSON value: `None`, `False`,
zero, the empty string, the empty list and the empty dict are falsy. -/
def pyTruthy : Json → Bool
  | Json.null => false
  | Json.bool b => b
  | Json.int n => n != 0
  | Json.float q => q != 0
  | Json.str s => s != ""
  | Json.arr [] => false
  | Json.arr (_ :: _) => true
  | Json.obj [] => false
  | Json.obj (_ :: _) => true

/-- Truthiness of a `dict.get` result; an absent key (`None`) is falsy. -/
def pyTruthyOpt : Option Json → Bool
  | some v => pyTruthy v
  | none => false

/-- Python `x or default` on a `dict.get` result. -/
def pyOrJson (o : Option Json) (dflt : Json) : Json :=
  match o with
  | some v => if pyTruthy v then v else dflt
  | none => dflt

/-- Python `dict.get(key)`: the last occurrence wins, matching the dict built
by `json.loads` from duplicate keys. -/
def pyGet : List (String × Json) → String → Option Json
  | [], _ => none
  | p :: rest, key =>
    match pyGet rest key with
    | some w => some w
    | none => if p.1 = key then some p.2 else none

/-- Whether a key occurs in the dict. -/
def pyHasKey : List (String × Json) → String → Bool
  | [], _ => false
  | p :: rest, key => (p.1 = key) || pyHasKey rest key

/-- Replace the value at every occurrence of `key`, keeping positions. -/
def pyReplace : List (String × Json) → String → Json → List (String × Json)
  | [], _, _ => []
  | p :: rest, key, v =>
    (if p.1 = key then (key, v) else p) :: pyReplace rest key v

/-- Python `data[key] = v`: an existing key keeps its insertion position and
gets the new value; a fresh key is appended at the end. -/
def pySet (l : List (String × Json)) (key : String) (v : Json) :
    List (String × Json) :=
  if pyHasKey l key then pyReplace l key v else l ++ [(key, v)]

theorem pyGet_eq_none_of_not_hasKey (l : List (String × Json)) (key : String)
    (h : pyHasKey l key = false) : pyGet l key = none := by
  induction l with
  | nil => rfl
  | cons p rest ih =>
    simp only [pyHasKey, Bool.or_eq_false_iff] at h
    simp only [pyGet, ih h.2]
    have : ¬ p.1 = key := by
      intro hk
      simp [hk] at h
    simp [this]

theorem pyGet_pyReplace_self (l : List (String × Json)) (key : String)
    (v : Json) :
    pyGet (pyReplace l key v) key =
      if pyHasKey l key then some v else none := by
  induction l with
  | nil => rfl
  | cons p rest ih =>
    by_cases hk : p.1 = key
    · simp only [pyReplace, pyHasKey, hk, if_pos, pyGet, ih]
      by_cases hr : pyHasKey rest key
      · simp [hr]
      · simp [hr]
    · simp only [pyReplace, pyHasKey, hk, if_neg, pyGet, ih]
      by_cases hr : pyHasKey rest key
      · simp [hr]
      · simp [hr, hk]

theorem pyGet_pyReplace_ne (l : List (String × Json)) (key key' : String)
    (v : Json) (h : key ≠ key') :
    pyGet (pyReplace l key v) key' = pyGet l key' := by
  induction l with
  | nil => rfl
  | cons p rest ih =>
    by_cases hk : p.1 = key
    · have h1 : ¬ (key = key') := h
      have h2 : ¬ (p.1 = key') := by rw [hk]; exact h
      simp [pyReplace, pyGet, ih, hk, h1, h2]
    · simp [pyReplace, pyGet, ih, hk]

theorem pyGet_append_single_self (l : List (String × Json)) (key : String)
    (v : Json) : pyGet (l ++ [(key, v)]) key = some v := by
  induction l with
  | nil => simp [pyGet]
  | cons p rest ih =>
    simp only [List.cons_append, List.append_eq, pyGet]
    rw [ih]

theorem pyGet_append_single_ne (l : List (String × Json)) (key key' : String)
    (v : Json) (h : key ≠ key') :
    pyGet (l ++ [(key, v)]) key' = pyGet l key' := by
  induction l with
  | nil => simp [pyGet, h]
  | cons p rest ih =>
    simp only [List.cons_append, List.append_eq, pyGet]
    rw [ih]

/-- Updating a key then reading it back yields the new value. -/
theorem pyGet_pySet_self (l : List (String × Json)) (key : String) (v : Json) :
    pyGet (pySet l key v) key = some v := by
  unfold pySet
  by_cases hk : pyHasKey l key
  · simp [hk, pyGet_pyReplace_self]
  · simp [hk, pyGet_append_single_self]

/-- Updating one key leaves every other key unchanged. -/
theorem pyGet_pySet_ne (l : List (String × Json)) (key key' : String)
    (v : Json) (h : key ≠ key') :
    pyGet (pySet l key v) key' = pyGet l key' := by
  unfold pySet
  by_cases hk : pyHasKey l key
  · simp [hk, pyGet_pyReplace_ne _ _ _ _ h]
  · simp [hk, pyGet_append_single_ne _ _ _ _ h]

/-!
Dates. `datetime.now()` is modelled as a day number `z : Int` with
1970-01-01 ↦ 0 (adding one day adds one). `datetime.weekday()` indexes
Monday = 0 .. Sunday = 6; 1970-01-01 was a Thursday, hence the `+ 3`.
`strftime` with format `%Y-%m-%d` is `formatISO ∘ civilFromDays` below
(proleptic Gregorian; years are zero-padded to four digits, which agrees with
CPython for every year `datetime` can hold once four digits are reached).
-/

/-- Python `date.weekday()`: Monday = 0 .. Sunday = 6. -/
def weekday (z : Int) : Nat := ((z + 3) % 7).toNat

/-- Gregorian civil date (year, month, day) from a day count measured from
0000-03-01 (the standard era-based calendar algorithm). -/
def civilFromDaysNat (n : Nat) : Nat × Nat × Nat :=
  let era := n / 146097
  let doe := n % 146097
  let yoe := (doe - doe / 1460 + doe / 36524 - doe / 146097) / 365
  let y := yoe + era * 400
  let doy := doe - (365 * yoe + yoe / 4 - yoe / 100)
  let mp := (5 * doy + 2) / 153
  let d := doy - (153 * mp + 2) / 5 + 1
  let m := if mp < 10 then mp + 3 else mp - 9
  (if m ≤ 2 then y + 1 else y, m, d)

/-- Civil date of a day number with epoch 1970-01-01 ↦ 0. -/
def civilFromDays (z : Int) : Nat × Nat × Nat :=
  civilFromDaysNat (z + 719468).toNat

/-- Zero-pad a number to two digits (as `%m` / `%d` do). -/
def pad2 (n : Nat) : String :=
  if n < 10 then "0" ++ toString n else toString n

/-- Zero-pad a number to four digits (as `%Y` does for modern years). -/
def pad4 (n : Nat) : String :=
  if n < 10 then "000" ++ toString n
  else if n < 100 then "00" ++ toString n
  else if n < 1000 then "0" ++ toString n
  else toString n

/-- `strftime("%Y-%m-%d")` on a civil date. -/
def formatISO : Nat × Nat × Nat → String
  | (y, m, d) => pad4 y ++ "-" ++ pad2 m ++ "-" ++ pad2 d

/-- Model of `get_next_friday` (src/main.py lines 52-57): from `today`,
`days_ahead = 4 - today.weekday()`, bumped by 7 when non-positive, and the
shifted date rendered as `YYYY-MM-DD`. -/
def get_next_friday (z : Int) : String :=
  let days_ahead : Int := 4 - (weekday z : Int)
  let days_ahead := if days_ahead ≤ 0 then days_ahead + 7 else days_ahead
  formatISO (civilFromDays (z + days_ahead))

example : civilFromDays 0 = (1970, 1, 1) := by decide
example : civilFromDays 19723 = (2024, 1, 1) := by decide
example : weekday 19723 = 0 := by decide
example : get_next_friday 0 = "1970-01-02" := by decide
example : get_next_friday 19725 = "2024-01-05" := by decide

/-!
Python strings: `str.strip()` with no argument and the falsiness checks the
handlers use. Whitespace is modelled over the ASCII whitespace characters
(the inputs in every property below are ASCII).
-/

/-- Characters removed by Python `str.strip()` (ASCII fragment). -/
def pyIsSpace (c : Char) : Bool :=
  (c == ' ') || (c == '\t') || (c == '\n') || (c == '\r') ||
  (c == '\x0b') || (c == '\x0c')

/-- Python `s.strip()`: drop leading and trailing whitespace. -/
def pyStrip (s : String) : String :=
  String.mk (((s.toList.dropWhile pyIsSpace).reverse.dropWhile
    pyIsSpace).reverse)

theorem dropWhile_eq_nil_of_all {α : Type} (p : α → Bool) (l : List α)
    (h : ∀ c ∈ l, p c = true) : l.dropWhile p = [] := by
  induction l with
  | nil => rfl
  | cons a t ih =>
    rw [List.dropWhile_cons_of_pos (h a (List.mem_cons_self a t))]
    exact ih fun c hc => h c (List.mem_cons_of_mem a hc)

/-- A string made of whitespace only strips to the empty string, i.e. is
falsy after `strip()`. -/
theorem pyStrip_eq_empty_of_all_space (s : String)
    (h : ∀ c ∈ s.toList, pyIsSpace c = true) : pyStrip s = "" := by
  unfold pyStrip
  rw [dropWhile_eq_nil_of_all pyIsSpace s.toList h]
  rfl

/-- Python falsiness of an optional environment string: `None` and the empty
string are falsy (`if not TOKEN:`). -/
def strFalsy : Option String → Bool
  | none => true
  | some s => s == ""

/-- Python `x or default` for an optional string field. -/
def pyOrStr (o : Option String) (dflt : String) : String :=
  match o with
  | some s => if s = "" then dflt else s
  | none => dflt

/-- Python `x or default` for an optional list field. -/
def pyOrList (o : Option (List String)) (dflt : List String) : List String :=
  match o with
  | some l => if l = [] then dflt else l
  | none => dflt

/-- Environment configuration read at startup (`os.getenv`). -/
structure Config where
  openai_api_key : Option String
  todoist_api_token : Option String

/-- Model of the `TASK_SCHEMA` dict literal (src/main.py lines 243-257). -/
def TASK_SCHEMA : Json :=
  Json.obj
    [("name", Json.str "TaskPayload"),
     ("schema", Json.obj
       [("type", Json.str "object"),
        ("additionalProperties", Json.bool false),
        ("properties", Json.obj
          [("content", Json.obj
             [("type", Json.str "string"),
              ("description", Json.str "Task title")]),
           ("description", Json.obj
             [("type", Json.str "string"),
              ("description", Json.str "Markdown body")]),
           ("due_date", Json.obj
             [("type", Json.str "string"),
              ("description",
               Json.str "YYYY-MM-DD; default to next Friday if missing")]),
           ("labels", Json.obj
             [("type", Json.str "array"),
              ("items", Json.obj [("type", Json.str "string")])]),
           ("priority", Json.obj
             [("type", Json.str "integer"),
              ("minimum", Json.int 1),
              ("maximum", Json.int 4)])]),
        ("required", Json.arr [Json.str "content", Json.str "description"])])]

/-- Model of `format_instructions_for_model` (src/main.py lines 259-303): the
fixed f-string rule block with the XML spliced in, then `str.strip()` of the
whole text. Apostrophes are written `\x27`. -/
def format_instructions_for_model (xml_snippet : String) : String :=
  pyStrip
    ("\nYou convert JIRA XML to a Todoist task JSON payload.\n\nRules:\n- Extract title from <summary> into \x27content\x27.\n- Build a markdown \x27description\x27 with this layout (keep links clickable):\n  **JIRA Ticket**: [KEY](https://atyponjira.atlassian.net/browse/KEY)\n  **Reporter**: ...\n  **Assignee**: ...\n  **Created**: ...\n  **Updated**: ...\n\n  **Related Tickets**:\n  - [KEY](https://atyponjira.atlassian.net/browse/KEY)\n  - [KEY](https://atyponjira.atlassian.net/browse/KEY)\n\n  ---\n  **Summary**\n  (short paragraph)\n\n  ---\n  **Comments Summary**\n  - bullet points\n\n  ---\n  **Action Required**\n  (one sentence)\n\n- Labels: prefer existing labels (respect capitalization):\n  Urgent, 2024-MR6, 2024-MR7, 2024-MR8, PB Configs, CR, Improvement, Inquiry,\n  Bug, Task, Discovery, Implementation, QA/Testing, RFR, Waiting On Feedback,\n  E-Reader, Analytics, Help, Reminder, Internal.\n- Priority mapping: P1 (Blocker) : 4 (+ label \x27Urgent\x27 if appropriate),P2 (Critical) : 3, P3 (Normal) : 2, P4 (Minor) : 1.\n- Type/status/component: map to existing labels when possible (Bug, Task, Implementation,\n  Waiting On Feedback, Internal, Analytics, E-Reader). Create a new label only if no close match exists.\n- Fixed Version: if like \x22lit-2410-tandf-6.0\x22:\n    1) If a \x272024-MR6\x27 label exists, use that.\n    2) Else use \x272410 MR6\x27. Remove lowercase prefixes/words and dashes.\n- due_date: use YYYY-MM-DD; if missing, set to next Friday.\n- Output MUST match the JSON schema exactly.\n\nJIRA XML:\n"
     ++ xml_snippet ++ "\n")

/-- A chat-completion request as assembled at src/main.py lines 310-318. -/
structure ChatRequest where
  model : String
  system_message : String
  user_message : String
  response_format_type : String
  response_format_schema : Json
  temperature : Int

/-- The request `compile_task_payload_from_xml` sends to the generative
backend for a given raw XML text. -/
def mk_chat_request (xml_text : String) : ChatRequest :=
  ⟨"gpt-4o-mini",
   "You are a careful API that returns strictly valid JSON.",
   format_instructions_for_model xml_text,
   "json_schema",
   TASK_SCHEMA,
   0⟩

/-- Outbound HTTP targets of the service. -/
inductive SinkUrl where
  | tasks
  | taskById (task_id : Json)

/-- Outbound calls, in the order the handler performs them. A Todoist call
carries the `TODOIST_API_TOKEN` placed in its `Authorization` header (the code
interpolates it unchecked) and the JSON body sent. -/
inductive Event where
  | openaiCall (req : ChatRequest)
  | todoistCall (url : SinkUrl) (token : Option String) (body : Json)

/-- Outcome of one handler invocation. -/
inductive HandlerResult where
  | ok (body : Json)
  | httpError (status : Nat) (detail : String)
  | pyError (msg : String)

/-- The test `p is None or not isinstance(p, int) or p < 1 or p > 4` negated
(src/main.py line 330). Python's `isinstance(True, int)` holds and `True`
compares as 1, `False` as 0, so the boolean `true` passes the test. -/
def priority_ok : Option Json → Bool
  | some (Json.int n) => decide (1 ≤ n) && decide (n ≤ 4)
  | some (Json.bool b) => b
  | _ => false

/-- Model of the normalization step of `compile_task_payload_from_xml`
(src/main.py lines 326-332): default `due_date` when falsy, default `labels`
via `or []`, replace `priority` by 1 unless it passes the `isinstance` and
range test. -/
def normalize_payload (data : List (String × Json)) (today : Int) :
    List (String × Json) :=
  let d1 := if pyTruthyOpt (pyGet data "due_date") then data
            else pySet data "due_date" (Json.str (get_next_friday today))
  let d2 := pySet d1 "labels" (pyOrJson (pyGet d1 "labels") (Json.arr []))
  if priority_ok (pyGet d2 "priority") then d2
  else pySet d2 "priority" (Json.int 1)

/-- Model of `compile_task_payload_from_xml` (src/main.py lines 305-332).
`parsed` is the outcome of `json.loads` on the backend message content
(`none` when the content is absent/empty or is not valid JSON; the try/except
turns that into HTTP 502). A parsed non-dict hits `.get` and raises. -/
def compile_task_payload_from_xml (cfg : Config) (xml_text : String)
    (parsed : Option Json) (today : Int) : HandlerResult × List Event :=
  if strFalsy cfg.openai_api_key then
    (HandlerResult.httpError 500 "OPENAI_API_KEY not configured.", [])
  else
    match parsed with
    | none =>
      (HandlerResult.httpError 502 "AI returned invalid JSON payload.",
       [Event.openaiCall (mk_chat_request xml_text)])
    | some (Json.obj fields) =>
      (HandlerResult.ok (Json.obj (normalize_payload fields today)),
       [Event.openaiCall (mk_chat_request xml_text)])
    | some _ =>
      (HandlerResult.pyError "AttributeError: value has no attribute get",
       [Event.openaiCall (mk_chat_request xml_text)])

/-- Model of the `/compile_task_from_xml` handler (src/main.py lines
334-343): `body.get("xml", "")`, reject blank input with HTTP 400, else
delegate to the payload compiler. -/
def compile_task_from_xml_handler (cfg : Config) (body_xml : Option String)
    (parsed : Option Json) (today : Int) : HandlerResult × List Event :=
  if pyStrip (body_xml.getD "") = "" then
    (HandlerResult.httpError 400 "Missing \x27xml\x27 in request body.", [])
  else compile_task_payload_from_xml cfg (body_xml.getD "") parsed today

/-- Model of the `/create_task_from_xml` handler (src/main.py lines 345-391):
blank-xml check, compile (its exceptions propagate), then the
`TODOIST_API_TOKEN` check, then the Todoist update-or-create call whose
status decides the response. Reading `compiled["content"]` etc. on the
update path raises `KeyError` when a key is missing. The part after the
compile call is factored into `create_sink_step`, which returns the result
together with only its own outbound calls; the handler prepends the compile
trace. -/
def create_sink_step (cfg : Config) (body_task_id : Option Json)
    (sinkStatus : Nat) (sinkText : String) (sinkBody : Option Json)
    (compiled : List (String × Json)) : HandlerResult × List Event :=
  if strFalsy cfg.todoist_api_token then
    (HandlerResult.httpError 500 "TODOIST_API_TOKEN not configured.", [])
  else if pyTruthyOpt body_task_id then
    match pyGet compiled "content", pyGet compiled "description",
          pyGet compiled "due_date", pyGet compiled "labels",
          pyGet compiled "priority" with
    | some c, some de, some du, some la, some pr =>
      (if sinkStatus = 200 ∨ sinkStatus = 204 then
         HandlerResult.ok (Json.obj
           [("message", Json.str "Task updated successfully"),
            ("task_id", body_task_id.getD Json.null)])
       else HandlerResult.httpError sinkStatus sinkText,
       [Event.todoistCall (SinkUrl.taskById (body_task_id.getD Json.null))
          cfg.todoist_api_token
          (Json.obj [("content", c), ("description", de), ("due_date", du),
                     ("labels", la), ("priority", pr)])])
    | _, _, _, _, _ =>
      (HandlerResult.pyError "KeyError: missing compiled field", [])
  else
    (if sinkStatus = 200 ∨ sinkStatus = 204 then
       HandlerResult.ok (Json.obj
         [("message", Json.str "Task created successfully"),
          ("todoist_response", sinkBody.getD Json.null)])
     else HandlerResult.httpError sinkStatus sinkText,
     [Event.todoistCall SinkUrl.tasks cfg.todoist_api_token
        (Json.obj compiled)])

def create_task_from_xml_handler (cfg : Config) (body_xml : Option String)
    (body_task_id : Option Json) (parsed : Option Json) (today : Int)
    (sinkStatus : Nat) (sinkText : String) (sinkBody : Option Json) :
    HandlerResult × List Event :=
  if pyStrip (body_xml.getD "") = "" then
    (HandlerResult.httpError 400 "Missing \x27xml\x27 in request body.", [])
  else
    match compile_task_payload_from_xml cfg (body_xml.getD "") parsed
      today with
    | (HandlerResult.ok (Json.obj compiled), evs) =>
      ((create_sink_step cfg body_task_id sinkStatus sinkText sinkBody
          compiled).1,
       evs ++ (create_sink_step cfg body_task_id sinkStatus sinkText sinkBody
          compiled).2)
    | (HandlerResult.ok _, evs) =>
      (HandlerResult.pyError "unreachable: compile ok is always a dict", evs)
    | (err, evs) => (err, evs)

/-- Request body of `/add_task` (the `TaskRequest` pydantic model,
src/main.py lines 99-103). -/
structure TaskRequest where
  content : String
  task_description : Option String
  due_date : Option String
  labels : Option (List String)

/-- The payload dict `/add_task` builds (src/main.py lines 118-124):
`or`-defaults for description, due date and labels, priority fixed at 3. -/
def add_task_payload (r : TaskRequest) (today : Int) :
    List (String × Json) :=
  [("content", Json.str r.content),
   ("description", Json.str (pyOrStr r.task_description "")),
   ("due_date", Json.str (pyOrStr r.due_date (get_next_friday today))),
   ("labels", Json.arr ((pyOrList r.labels []).map Json.str)),
   ("priority", Json.int 3)]

/-- Model of the `/add_task` handler (src/main.py lines 115-139). It performs
no credential check: the Todoist call is attempted with whatever
`TODOIST_API_TOKEN` holds. -/
def add_task_handler (r : TaskRequest) (cfg : Config) (today : Int)
    (sinkStatus : Nat) (sinkText : String) (sinkBody : Option Json) :
    HandlerResult × List Event :=
  (if sinkStatus = 200 ∨ sinkStatus = 204 then
     HandlerResult.ok (Json.obj
       [("message", Json.str "Task created successfully"),
        ("todoist_response", sinkBody.getD Json.null)])
   else HandlerResult.httpError sinkStatus sinkText,
   [Event.todoistCall SinkUrl.tasks cfg.todoist_api_token
      (Json.obj (add_task_payload r today))])

/-! Helper lemmas about the normalization step and the event traces. -/

theorem formatISO_ne_empty (t : Nat × Nat × Nat) : formatISO t ≠ "" := by
  obtain ⟨y, m, d⟩ := t
  intro h
  have hlen := congrArg String.length h
  simp only [formatISO, String.length_append] at hlen
  have hdash : ("-" : String).length = 1 := rfl
  have hnil : ("" : String).length = 0 := rfl
  rw [hdash, hnil] at hlen
  omega

theorem get_next_friday_ne_empty (z : Int) : get_next_friday z ≠ "" := by
  unfold get_next_friday
  exact formatISO_ne_empty _

theorem pyTruthy_get_next_friday (z : Int) :
    pyTruthy (Json.str (get_next_friday z)) = true := by
  simp only [pyTruthy, bne_iff_ne, ne_eq, decide_eq_true_eq]
  exact get_next_friday_ne_empty z

/-- The normalizer's effect on `due_date`: kept when truthy, else set to the
next-Friday string. -/
theorem norm_due (d : List (String × Json)) (z : Int) :
    pyGet (normalize_payload d z) "due_date" =
      if pyTruthyOpt (pyGet d "due_date") then pyGet d "due_date"
      else some (Json.str (get_next_friday z)) := by
  simp only [normalize_payload]
  by_cases h1 : pyTruthyOpt (pyGet d "due_date") = true
  · rw [if_pos h1, if_pos h1]
    split
    · exact pyGet_pySet_ne _ _ _ _ (by decide)
    · rw [pyGet_pySet_ne _ _ _ _ (by decide)]
      exact pyGet_pySet_ne _ _ _ _ (by decide)
  · rw [if_neg h1, if_neg h1]
    split
    · rw [pyGet_pySet_ne _ _ _ _ (by decide)]
      exact pyGet_pySet_self _ _ _
    · rw [pyGet_pySet_ne _ _ _ _ (by decide),
        pyGet_pySet_ne _ _ _ _ (by decide)]
      exact pyGet_pySet_self _ _ _

/-- The normalizer's effect on `labels`: always set, to the old value when
truthy and to the empty list otherwise. No deduplication happens. -/
theorem norm_labels (d : List (String × Json)) (z : Int) :
    pyGet (normalize_payload d z) "labels" =
      some (pyOrJson (pyGet d "labels") (Json.arr [])) := by
  simp only [normalize_payload]
  by_cases h1 : pyTruthyOpt (pyGet d "due_date") = true
  · rw [if_pos h1]
    split
    · exact pyGet_pySet_self _ _ _
    · rw [pyGet_pySet_ne _ _ _ _ (by decide)]
      exact pyGet_pySet_self _ _ _
  · rw [if_neg h1]
    rw [pyGet_pySet_ne d "due_date" "labels" _ (by decide)]
    split
    · exact pyGet_pySet_self _ _ _
    · rw [pyGet_pySet_ne _ _ _ _ (by decide)]
      exact pyGet_pySet_self _ _ _

/-- The normalizer's effect on `priority`: kept when it passes the
`isinstance`/range test, else set to the integer 1. -/
theorem norm_priority (d : List (String × Json)) (z : Int) :
    pyGet (normalize_payload d z) "priority" =
      if priority_ok (pyGet d "priority") then pyGet d "priority"
      else some (Json.int 1) := by
  simp only [normalize_payload]
  by_cases h1 : pyTruthyOpt (pyGet d "due_date") = true
  · rw [if_pos h1]
    have e1 : pyGet (pySet d "labels"
        (pyOrJson (pyGet d "labels") (Json.arr []))) "priority" =
        pyGet d "priority" := pyGet_pySet_ne _ _ _ _ (by decide)
    rw [e1]
    by_cases hp : priority_ok (pyGet d "priority") = true
    · rw [if_pos hp, if_pos hp]
      exact e1
    · rw [if_neg hp, if_neg hp]
      exact pyGet_pySet_self _ _ _
  · rw [if_neg h1]
    have e0 : pyGet (pySet d "due_date"
        (Json.str (get_next_friday z))) "priority" = pyGet d "priority" :=
      pyGet_pySet_ne _ _ _ _ (by decide)
    have e1 : pyGet (pySet (pySet d "due_date"
        (Json.str (get_next_friday z))) "labels"
        (pyOrJson (pyGet (pySet d "due_date"
          (Json.str (get_next_friday z))) "labels") (Json.arr []))) "priority"
        = pyGet d "priority" :=
      (pyGet_pySet_ne _ _ _ _ (by decide)).trans e0
    rw [e1]
    by_cases hp : priority_ok (pyGet d "priority") = true
    · rw [if_pos hp, if_pos hp]
      exact e1
    · rw [if_neg hp, if_neg hp]
      exact pyGet_pySet_self _ _ _

/-- The payload compiler's trace is empty (configuration failure) or exactly
one backend call carrying the fixed request for its XML. -/
theorem compile_events_cases (cfg : Config) (xml : String)
    (parsed : Option Json) (today : Int) :
    (compile_task_payload_from_xml cfg xml parsed today).2 = [] ∨
    (compile_task_payload_from_xml cfg xml parsed today).2 =
      [Event.openaiCall (mk_chat_request xml)] := by
  unfold compile_task_payload_from_xml
  by_cases h : strFalsy cfg.openai_api_key = true
  · rw [if_pos h]
    exact Or.inl rfl
  · rw [if_neg h]
    cases parsed with
    | none => exact Or.inr rfl
    | some j => cases j <;> exact Or.inr rfl

/-!
Claim theorems.
-/

/-- C2: when the due date is absent or empty, normalization sets it to the
next Friday relative to the current date, computed as
`offset = 4 - weekday` (Monday = 0 .. Sunday = 6) with 7 added when the
offset is non-positive, formatted `YYYY-MM-DD`; the offset lies in 1..7, the
shifted day is always a Friday, a Friday reference date gives offset 7
(never the same day) and a Wednesday reference date gives offset 2. -/
theorem c2_next_friday_default (z : Int) (d : List (String × Json)) :
    ((pyGet d "due_date" = none ∨ pyGet d "due_date" = some (Json.str "")) →
      pyGet (normalize_payload d z) "due_date" =
        some (Json.str (get_next_friday z)))
    ∧ ∃ off : Int,
        get_next_friday z = formatISO (civilFromDays (z + off))
        ∧ 1 ≤ off ∧ off ≤ 7
        ∧ weekday (z + off) = 4
        ∧ (weekday z = 4 → off = 7)
        ∧ (weekday z = 2 → off = 2) := by
  constructor
  · intro h
    rw [norm_due]
    have hf : pyTruthyOpt (pyGet d "due_date") = false := by
      rcases h with h | h <;> simp [h, pyTruthyOpt, pyTruthy]
    simp [hf]
  · have hw : ((weekday z : Int)) = (z + 3) % 7 :=
      Int.toNat_of_nonneg (Int.emod_nonneg _ (by norm_num))
    have hw2 : 0 ≤ (z + 3) % 7 := Int.emod_nonneg _ (by norm_num)
    have hw3 : (z + 3) % 7 < 7 := Int.emod_lt_of_pos _ (by norm_num)
    refine ⟨if (4 - (weekday z : Int)) ≤ 0 then 4 - (weekday z : Int) + 7
      else 4 - (weekday z : Int), ?_, ?_, ?_, ?_, ?_, ?_⟩
    · simp only [get_next_friday]
    · by_cases hc : (4 - (weekday z : Int)) ≤ 0 <;>
        simp only [hc, if_true, if_false, ite_true, ite_false, if_pos,
          if_neg, not_false_iff] <;>
        omega
    · by_cases hc : (4 - (weekday z : Int)) ≤ 0 <;>
        simp only [hc, ite_true, ite_false] <;> omega
    · unfold weekday
      have hr : ((((z + 3) % 7).toNat : Nat) : Int) = (z + 3) % 7 :=
        Int.toNat_of_nonneg hw2
      rw [hr]
      obtain ⟨q, r, hzr, hr0, hr7⟩ :
          ∃ q r, z + 3 = 7 * q + r ∧ 0 ≤ r ∧ r < 7 :=
        ⟨(z + 3) / 7, (z + 3) % 7, by omega, by omega, by omega⟩
      have hre : (z + 3) % 7 = r := by omega
      have hz : z = 7 * q + r - 3 := by omega
      rw [hre]
      by_cases hc : (4 - r) ≤ 0
      · rw [if_pos hc, hz]
        omega
      · rw [if_neg hc, hz]
        omega
    · intro h4
      rw [h4] at hw ⊢
      simp only [show ((4 : Nat) : Int) = 4 from rfl] at hw ⊢
      omega
    · intro h2
      rw [h2] at hw ⊢
      simp only [show ((2 : Nat) : Int) = 2 from rfl] at hw ⊢
      omega

/-- C2 witness: at the Wednesday 2024-01-03 (day number 19725) with an empty
payload, normalization fills in the next Friday, which is 2024-01-05 — two
days later. -/
theorem c2_witness :
    pyGet (normalize_payload [] 19725) "due_date" =
        some (Json.str (get_next_friday 19725))
      ∧ weekday 19725 = 2 ∧ get_next_friday 19725 = "2024-01-05" :=
  ⟨(c2_next_friday_default 19725 []).1 (Or.inl rfl), by decide, by decide⟩

/-- C3 counterexample: the backend payload `{"priority": true}` — a JSON
boolean, not an integer — survives normalization unchanged instead of being
set to 1, because Python's `isinstance(True, int)` holds and `True` compares
as 1. -/
theorem c3_counterexample :
    normalize_payload [("priority", Json.bool true)] 0 =
      [("priority", Json.bool true), ("due_date", Json.str "1970-01-02"),
       ("labels", Json.arr [])] := rfl

/-- C3 amended: normalization sets priority to 1 when the field is absent,
not a Python `int` (booleans included), or outside 1..4 with `False` = 0 and
`True` = 1; integers in 1..4 pass through unchanged, and so does the boolean
`true`. -/
theorem c3_priority_normalization_amended (d : List (String × Json))
    (today : Int) :
    (priority_ok (pyGet d "priority") = true →
      pyGet (normalize_payload d today) "priority" = pyGet d "priority")
    ∧ (priority_ok (pyGet d "priority") = false →
      pyGet (normalize_payload d today) "priority" = some (Json.int 1))
    ∧ (∀ n : Int, priority_ok (some (Json.int n)) = true ↔ 1 ≤ n ∧ n ≤ 4)
    ∧ priority_ok none = false
    ∧ (∀ s : String, priority_ok (some (Json.str s)) = false)
    ∧ (∀ q : ℚ, priority_ok (some (Json.float q)) = false)
    ∧ (∀ b : Bool, priority_ok (some (Json.bool b)) = b) := by
  refine ⟨?_, ?_, ?_, rfl, fun s => rfl, fun q => rfl, fun b => rfl⟩
  · intro h
    rw [norm_priority, if_pos h]
  · intro h
    rw [norm_priority, if_neg (by simp [h])]
  · intro n
    simp [priority_ok]

/-- C3 witness: an in-range integer priority 2 passes through unchanged. -/
theorem c3_witness :
    pyGet (normalize_payload [("priority", Json.int 2)] 0) "priority" =
      some (Json.int 2) :=
  ((c3_priority_normalization_amended [("priority", Json.int 2)] 0).1
    rfl).trans rfl

/-- C4 counterexample: duplicate labels `["bug", "bug"]` pass normalization
verbatim — the output label list holds "bug" at two positions, so the output
does contain the same label twice and labels are not deduplicated.
Evaluated at the reference day 0 (1970-01-01). -/
theorem c4_counterexample :
    normalize_payload
        [("labels", Json.arr [Json.str "bug", Json.str "bug"])] 0 =
      [("labels", Json.arr [Json.str "bug", Json.str "bug"]),
       ("due_date", Json.str "1970-01-02"), ("priority", Json.int 1)] := rfl

/-- C4 amended: normalization yields the empty list when labels are absent
or falsy, and otherwise passes the labels value through completely
unchanged — it performs no deduplication. -/
theorem c4_labels_normalization_amended (d : List (String × Json))
    (today : Int) :
    (pyTruthyOpt (pyGet d "labels") = false →
      pyGet (normalize_payload d today) "labels" = some (Json.arr []))
    ∧ (∀ v, pyGet d "labels" = some v → pyTruthy v = true →
      pyGet (normalize_payload d today) "labels" = some v) := by
  constructor
  · intro h
    rw [norm_labels]
    cases hv : pyGet d "labels" with
    | none => simp [pyOrJson]
    | some v =>
      rw [hv] at h
      simp only [pyTruthyOpt] at h
      simp [pyOrJson, h]
  · intro v hv ht
    rw [norm_labels, hv]
    simp [pyOrJson, ht]

/-- C4 witness: absent labels become the empty list. -/
theorem c4_witness :
    pyGet (normalize_payload [] 0) "labels" = some (Json.arr []) :=
  (c4_labels_normalization_amended [] 0).1 rfl

/-- C5: when the backend message content does not parse as JSON, the compile
call fails with HTTP 502 ("AI returned invalid JSON payload.", the
GenerativeOutputInvalid failure), the trace shows exactly one backend call —
no retry — and no Task payload (deterministic or otherwise) is produced. -/
theorem c5_generative_output_invalid (cfg : Config) (xml : String)
    (today : Int) (h : strFalsy cfg.openai_api_key = false) :
    compile_task_payload_from_xml cfg xml none today =
      (HandlerResult.httpError 502 "AI returned invalid JSON payload.",
       [Event.openaiCall (mk_chat_request xml)]) := by
  simp [compile_task_payload_from_xml, h]

/-- C5 witness: concrete configuration with a key present and an unparseable
backend response. -/
theorem c5_witness :
    compile_task_payload_from_xml ⟨some "k", none⟩ "x" none 0 =
      (HandlerResult.httpError 502 "AI returned invalid JSON payload.",
       [Event.openaiCall (mk_chat_request "x")]) :=
  c5_generative_output_invalid ⟨some "k", none⟩ "x" 0 rfl

/-- When the key is configured, the payload compiler performs exactly one
backend call, with the fixed request for its XML. -/
theorem compile_trace_of_key (cfg : Config) (xml : String)
    (parsed : Option Json) (today : Int)
    (h : strFalsy cfg.openai_api_key = false) :
    (compile_task_payload_from_xml cfg xml parsed today).2 =
      [Event.openaiCall (mk_chat_request xml)] := by
  unfold compile_task_payload_from_xml
  rw [if_neg (by simp [h])]
  cases parsed with
  | none => rfl
  | some j => cases j <;> rfl

/-- A backend call found in the payload compiler's trace is the fixed
request built from its XML argument. -/
theorem compile_req_of_mem (cfg : Config) (xml : String)
    (parsed : Option Json) (today : Int) (req : ChatRequest)
    (h : Event.openaiCall req ∈
      (compile_task_payload_from_xml cfg xml parsed today).2) :
    req = mk_chat_request xml := by
  rcases compile_events_cases cfg xml parsed today with he | he <;>
    rw [he] at h
  · simp at h
  · rw [List.mem_singleton] at h
    injection h

/-- C1 counterexample: a backend response that parses as the JSON object
`{"content": "", "description": "d", "due_date": "not-a-date",
"labels": ["bug", "bug"], "priority": true}` is returned by the compile
operation unchanged — the payload has an empty title, a due date that is not
an ISO calendar date, duplicated labels, and a non-integer priority, so all
four claimed constraints fail at once. -/
theorem c1_counterexample :
    compile_task_payload_from_xml ⟨some "k", some "t"⟩ "<issue/>"
      (some (Json.obj
        [("content", Json.str ""), ("description", Json.str "d"),
         ("due_date", Json.str "not-a-date"),
         ("labels", Json.arr [Json.str "bug", Json.str "bug"]),
         ("priority", Json.bool true)])) 0 =
      (HandlerResult.ok (Json.obj
        [("content", Json.str ""), ("description", Json.str "d"),
         ("due_date", Json.str "not-a-date"),
         ("labels", Json.arr [Json.str "bug", Json.str "bug"]),
         ("priority", Json.bool true)]),
       [Event.openaiCall (mk_chat_request "<issue/>")]) := rfl

/-- C1 amended: every Task payload returned by the compile operation (for a
backend response parsing as a JSON object) is the normalization of that
object and always carries a truthy `due_date`, a `labels` field, and a
`priority` passing the code's `isinstance`/range test (an integer in 1..4 or
the boolean `true`); title non-emptiness, due-date format and label
uniqueness are not enforced. -/
theorem c1_normalized_payload_amended (cfg : Config) (xml : String)
    (fields : List (String × Json)) (today : Int)
    (h : strFalsy cfg.openai_api_key = false) :
    compile_task_payload_from_xml cfg xml (some (Json.obj fields)) today =
      (HandlerResult.ok (Json.obj (normalize_payload fields today)),
       [Event.openaiCall (mk_chat_request xml)])
    ∧ (∃ v, pyGet (normalize_payload fields today) "due_date" = some v
        ∧ pyTruthy v = true)
    ∧ (∃ l, pyGet (normalize_payload fields today) "labels" = some l)
    ∧ (∃ p, pyGet (normalize_payload fields today) "priority" = some p
        ∧ priority_ok (some p) = true) := by
  refine ⟨by simp [compile_task_payload_from_xml, h], ?_, ?_, ?_⟩
  · rw [norm_due]
    by_cases h1 : pyTruthyOpt (pyGet fields "due_date") = true
    · rw [if_pos h1]
      cases hv : pyGet fields "due_date" with
      | none =>
        rw [hv] at h1
        exact absurd h1 (by simp [pyTruthyOpt])
      | some v =>
        rw [hv] at h1
        simp only [pyTruthyOpt] at h1
        exact ⟨v, rfl, h1⟩
    · rw [if_neg h1]
      exact ⟨_, rfl, pyTruthy_get_next_friday today⟩
  · rw [norm_labels]
    exact ⟨_, rfl⟩
  · rw [norm_priority]
    by_cases hp : priority_ok (pyGet fields "priority") = true
    · rw [if_pos hp]
      cases hv : pyGet fields "priority" with
      | none =>
        rw [hv] at hp
        exact absurd hp (by simp [priority_ok])
      | some p =>
        rw [hv] at hp
        exact ⟨p, rfl, hp⟩
    · rw [if_neg hp]
      exact ⟨Json.int 1, rfl, rfl⟩

/-- C1 witness: the empty backend object is normalized and returned, with
the configured key. -/
theorem c1_witness :
    compile_task_payload_from_xml ⟨some "k", some "t"⟩ "<issue/>"
      (some (Json.obj [])) 0 =
      (HandlerResult.ok (Json.obj (normalize_payload [] 0)),
       [Event.openaiCall (mk_chat_request "<issue/>")]) :=
  (c1_normalized_payload_amended ⟨some "k", some "t"⟩ "<issue/>" [] 0 rfl).1

/-- C9: a request body whose `xml` value is missing, empty or whitespace-only
makes both XML endpoints fail with HTTP 400 and an empty outbound trace — no
generative-backend call and no task-sink call is made. -/
theorem c9_blank_xml_rejected (cfg : Config) (bx : Option String)
    (tid parsed : Option Json) (today : Int) (ss : Nat) (st : String)
    (sb : Option Json)
    (h : ∀ c ∈ (bx.getD "").toList, pyIsSpace c = true) :
    compile_task_from_xml_handler cfg bx parsed today =
      (HandlerResult.httpError 400 "Missing \x27xml\x27 in request body.", [])
    ∧ create_task_from_xml_handler cfg bx tid parsed today ss st sb =
      (HandlerResult.httpError 400 "Missing \x27xml\x27 in request body.",
       []) := by
  have hs : pyStrip (bx.getD "") = "" := pyStrip_eq_empty_of_all_space _ h
  constructor
  · simp [compile_task_from_xml_handler, hs]
  · simp [create_task_from_xml_handler, hs]

/-- C9 witness: a whitespace-only body and a missing body both yield the 400
error with no outbound calls. -/
theorem c9_witness :
    compile_task_from_xml_handler ⟨some "k", some "t"⟩ (some " \n ") none 0 =
      (HandlerResult.httpError 400 "Missing \x27xml\x27 in request body.", [])
    ∧ create_task_from_xml_handler ⟨some "k", some "t"⟩ (some " \n ") none
        none 0 200 "" none =
      (HandlerResult.httpError 400 "Missing \x27xml\x27 in request body.",
       []) :=
  c9_blank_xml_rejected ⟨some "k", some "t"⟩ (some " \n ") none none 0 200
    "" none (by decide)

/-- C10: every `/add_task` request forwards to the task sink a payload whose
priority is exactly 3 whatever the request holds, whose description defaults
to the empty string when absent, and whose labels default to the empty list
when absent. -/
theorem c10_add_task_payload_shape (r : TaskRequest) (cfg : Config)
    (today : Int) (ss : Nat) (st : String) (sb : Option Json) :
    (add_task_handler r cfg today ss st sb).2 =
      [Event.todoistCall SinkUrl.tasks cfg.todoist_api_token
        (Json.obj (add_task_payload r today))]
    ∧ pyGet (add_task_payload r today) "priority" = some (Json.int 3)
    ∧ (r.task_description = none →
        pyGet (add_task_payload r today) "description" = some (Json.str ""))
    ∧ (r.labels = none →
        pyGet (add_task_payload r today) "labels" = some (Json.arr [])) := by
  refine ⟨rfl, rfl, ?_, ?_⟩
  · intro h
    have e : pyGet (add_task_payload r today) "description" =
        some (Json.str (pyOrStr r.task_description "")) := rfl
    rw [e, h]
    rfl
  · intro h
    have e : pyGet (add_task_payload r today) "labels" =
        some (Json.arr ((pyOrList r.labels []).map Json.str)) := rfl
    rw [e, h]
    rfl

/-- C10 witness: a minimal request with all optional fields absent. -/
theorem c10_witness :
    (add_task_handler ⟨"x", none, none, none⟩ ⟨some "k", some "t"⟩ 0 200 ""
        none).2 =
      [Event.todoistCall SinkUrl.tasks (some "t")
        (Json.obj (add_task_payload ⟨"x", none, none, none⟩ 0))]
    ∧ pyGet (add_task_payload ⟨"x", none, none, none⟩ 0) "priority" =
        some (Json.int 3)
    ∧ pyGet (add_task_payload ⟨"x", none, none, none⟩ 0) "description" =
        some (Json.str "")
    ∧ pyGet (add_task_payload ⟨"x", none, none, none⟩ 0) "labels" =
        some (Json.arr []) := by
  obtain ⟨h1, h2, h3, h4⟩ :=
    c10_add_task_payload_shape ⟨"x", none, none, none⟩ ⟨some "k", some "t"⟩
      0 200 "" none
  exact ⟨h1, h2, h3 rfl, h4 rfl⟩

/-- C6 counterexample: `/add_task` with `TODOIST_API_TOKEN` absent performs
the sink call anyway (with the absent token in its header) and surfaces the
sink's 403 — no ConfigurationMissing-style failure, and a network call was
attempted despite the missing credential. -/
theorem c6_counterexample :
    add_task_handler ⟨"x", none, none, none⟩ ⟨some "k", none⟩ 0 403
        "Forbidden" none =
      (HandlerResult.httpError 403 "Forbidden",
       [Event.todoistCall SinkUrl.tasks none (Json.obj
         [("content", Json.str "x"), ("description", Json.str ""),
          ("due_date", Json.str "1970-01-02"), ("labels", Json.arr []),
          ("priority", Json.int 3)])]) := rfl

/-- C6 amended: `compile_task_payload_from_xml` fails with HTTP 500 before
any call when `OPENAI_API_KEY` is absent; `create_task_from_xml` fails with
HTTP 500 before the sink call — but after the backend call — when
`TODOIST_API_TOKEN` is absent; `add_task` performs no credential check at
all and always attempts the sink call. -/
theorem c6_credential_checks_amended :
    (∀ (cfg : Config) (xml : String) (parsed : Option Json) (today : Int),
      strFalsy cfg.openai_api_key = true →
      compile_task_payload_from_xml cfg xml parsed today =
        (HandlerResult.httpError 500 "OPENAI_API_KEY not configured.", []))
    ∧ (∀ (cfg : Config) (xmlS : String) (tid : Option Json)
        (fields : List (String × Json)) (today : Int) (ss : Nat)
        (st : String) (sb : Option Json),
      strFalsy cfg.openai_api_key = false →
      strFalsy cfg.todoist_api_token = true →
      pyStrip xmlS ≠ "" →
      create_task_from_xml_handler cfg (some xmlS) tid
          (some (Json.obj fields)) today ss st sb =
        (HandlerResult.httpError 500 "TODOIST_API_TOKEN not configured.",
         [Event.openaiCall (mk_chat_request xmlS)]))
    ∧ (∀ (r : TaskRequest) (cfg : Config) (today : Int) (ss : Nat)
        (st : String) (sb : Option Json),
      (add_task_handler r cfg today ss st sb).2 =
        [Event.todoistCall SinkUrl.tasks cfg.todoist_api_token
          (Json.obj (add_task_payload r today))]) := by
  refine ⟨?_, ?_, ?_⟩
  · intro cfg xml parsed today h
    simp [compile_task_payload_from_xml, h]
  · intro cfg xmlS tid fields today ss st sb h1 h2 h3
    have hc : compile_task_payload_from_xml cfg xmlS
        (some (Json.obj fields)) today =
        (HandlerResult.ok (Json.obj (normalize_payload fields today)),
         [Event.openaiCall (mk_chat_request xmlS)]) := by
      simp [compile_task_payload_from_xml, h1]
    simp [create_task_from_xml_handler, create_sink_step, h3, hc, h2]
  · intro r cfg today ss st sb
    rfl

/-- C6 witness: the missing-OPENAI-key and missing-Todoist-token cases at
concrete inputs. -/
theorem c6_witness :
    compile_task_payload_from_xml ⟨none, some "t"⟩ "x" none 0 =
      (HandlerResult.httpError 500 "OPENAI_API_KEY not configured.", [])
    ∧ create_task_from_xml_handler ⟨some "k", none⟩ (some "<i/>") none
        (some (Json.obj [])) 0 200 "" none =
      (HandlerResult.httpError 500 "TODOIST_API_TOKEN not configured.",
       [Event.openaiCall (mk_chat_request "<i/>")]) :=
  ⟨c6_credential_checks_amended.1 ⟨none, some "t"⟩ "x" none 0 rfl,
   c6_credential_checks_amended.2.1 ⟨some "k", none⟩ "<i/>" none [] 0 200
     "" none rfl rfl (by decide)⟩

/-- C7 counterexample: the blob `"<unterminated"` is not well-formed XML,
yet the compile endpoint invokes the generative backend on it and succeeds —
no MalformedInput failure exists and the backend is not shielded. -/
theorem c7_counterexample :
    compile_task_from_xml_handler ⟨some "k", some "t"⟩
      (some "<unterminated") (some (Json.obj
        [("content", Json.str "T"), ("description", Json.str "D")])) 0 =
      (HandlerResult.ok (Json.obj
        [("content", Json.str "T"), ("description", Json.str "D"),
         ("due_date", Json.str "1970-01-02"), ("labels", Json.arr []),
         ("priority", Json.int 1)]),
       [Event.openaiCall (mk_chat_request "<unterminated")]) := rfl

/-- C7 amended: the compile endpoint performs no XML well-formedness check.
Every request whose `xml` text is non-blank is forwarded to the generative
backend, well-formed or not (given a configured key); only a missing or
blank `xml` fails — with HTTP 400, before any outbound call. -/
theorem c7_no_xml_wellformedness_check_amended :
    (∀ (cfg : Config) (xmlS : String) (parsed : Option Json) (today : Int),
      pyStrip xmlS ≠ "" → strFalsy cfg.openai_api_key = false →
      (compile_task_from_xml_handler cfg (some xmlS) parsed today).2 =
        [Event.openaiCall (mk_chat_request xmlS)])
    ∧ (∀ (cfg : Config) (bx : Option String) (parsed : Option Json)
        (today : Int),
      pyStrip (bx.getD "") = "" →
      compile_task_from_xml_handler cfg bx parsed today =
        (HandlerResult.httpError 400 "Missing \x27xml\x27 in request body.",
         [])) := by
  constructor
  · intro cfg xmlS parsed today h1 h2
    have ht := compile_trace_of_key cfg xmlS parsed today h2
    simp [compile_task_from_xml_handler, h1, ht]
  · intro cfg bx parsed today h
    simp [compile_task_from_xml_handler, h]

/-- C7 witness: a non-blank blob reaches the backend; a missing body yields
the 400 error with no calls. -/
theorem c7_witness :
    (compile_task_from_xml_handler ⟨some "k", some "t"⟩ (some "<a>") none
        0).2 = [Event.openaiCall (mk_chat_request "<a>")]
    ∧ compile_task_from_xml_handler ⟨some "k", some "t"⟩ none none 0 =
      (HandlerResult.httpError 400 "Missing \x27xml\x27 in request body.",
       []) :=
  ⟨c7_no_xml_wellformedness_check_amended.1 ⟨some "k", some "t"⟩ "<a>" none
     0 (by decide) rfl,
   c7_no_xml_wellformedness_check_amended.2 ⟨some "k", some "t"⟩ none none
     0 rfl⟩

/-- A backend call is never the trailing Todoist call of an extended
trace. -/
theorem openai_mem_of_append_todoist (req : ChatRequest) (evs : List Event)
    (u : SinkUrl) (t : Option String) (b : Json)
    (h : Event.openaiCall req ∈ evs ++ [Event.todoistCall u t b]) :
    Event.openaiCall req ∈ evs := by
  rcases List.mem_append.mp h with h | h
  · exact h
  · rw [List.mem_singleton] at h
    exact absurd h (by intro hh; cases hh)

/-- The sink step of the create endpoint never performs a backend call. -/
theorem openai_not_mem_sink_step (cfg : Config) (tid : Option Json)
    (ss : Nat) (st : String) (sb : Option Json)
    (compiled : List (String × Json)) (req : ChatRequest) :
    Event.openaiCall req ∉ (create_sink_step cfg tid ss st sb compiled).2 :=
  by
  unfold create_sink_step
  split
  · exact List.not_mem_nil _
  · split
    · split
      · intro hm
        rw [List.mem_singleton] at hm
        cases hm
      · exact List.not_mem_nil _
    · intro hm
      rw [List.mem_singleton] at hm
      cases hm

/-- Any backend call in the create-endpoint's trace is the fixed compile
request for its XML. -/
theorem create_req_of_mem (cfg : Config) (bx : Option String)
    (tid parsed : Option Json) (today : Int) (ss : Nat) (st : String)
    (sb : Option Json) (req : ChatRequest)
    (h : Event.openaiCall req ∈
      (create_task_from_xml_handler cfg bx tid parsed today ss st sb).2) :
    req = mk_chat_request (bx.getD "") := by
  unfold create_task_from_xml_handler at h
  by_cases h0 : pyStrip (bx.getD "") = ""
  · rw [if_pos h0] at h
    exact absurd h (List.not_mem_nil _)
  · rw [if_neg h0] at h
    rcases hcp : compile_task_payload_from_xml cfg (bx.getD "") parsed today
      with ⟨res, evs⟩
    rw [hcp] at h
    have hevs : Event.openaiCall req ∈ evs →
        req = mk_chat_request (bx.getD "") := fun hm =>
      compile_req_of_mem cfg (bx.getD "") parsed today req
        (by rw [hcp]; exact hm)
    cases res with
    | ok body =>
      cases body with
      | obj compiled =>
        have h2 : Event.openaiCall req ∈
            evs ++ (create_sink_step cfg tid ss st sb compiled).2 := h
        rcases List.mem_append.mp h2 with hm | hm
        · exact hevs hm
        · exact absurd hm (openai_not_mem_sink_step _ _ _ _ _ _ _)
      | null => exact hevs h
      | bool b => exact hevs h
      | int n => exact hevs h
      | float q => exact hevs h
      | str s => exact hevs h
      | arr l => exact hevs h
    | httpError s d => exact hevs h
    | pyError m => exact hevs h

/-- C8: every request sent to the generative backend is the fixed chat
request: temperature 0 (deterministic sampling at the minimum), response
format `json_schema` with `TASK_SCHEMA`, whose schema requires the string
fields `content` and `description`, permits only `due_date` (string),
`labels` (array of strings) and `priority` (integer, minimum 1, maximum 4)
besides them, and forbids additional properties. -/
theorem c8_backend_schema_and_sampling :
    (∀ xml : String, (mk_chat_request xml).temperature = 0
      ∧ (mk_chat_request xml).response_format_type = "json_schema"
      ∧ (mk_chat_request xml).response_format_schema = TASK_SCHEMA)
    ∧ (∃ schemaFields props,
        TASK_SCHEMA = Json.obj
          [("name", Json.str "TaskPayload"),
           ("schema", Json.obj schemaFields)]
        ∧ pyGet schemaFields "additionalProperties" = some (Json.bool false)
        ∧ pyGet schemaFields "required" =
            some (Json.arr [Json.str "content", Json.str "description"])
        ∧ pyGet schemaFields "properties" = some (Json.obj props)
        ∧ props.map Prod.fst =
            ["content", "description", "due_date", "labels", "priority"]
        ∧ (∃ t, pyGet props "content" = some (Json.obj t)
            ∧ pyGet t "type" = some (Json.str "string"))
        ∧ (∃ t, pyGet props "description" = some (Json.obj t)
            ∧ pyGet t "type" = some (Json.str "string"))
        ∧ (∃ t, pyGet props "due_date" = some (Json.obj t)
            ∧ pyGet t "type" = some (Json.str "string"))
        ∧ pyGet props "labels" = some (Json.obj
            [("type", Json.str "array"),
             ("items", Json.obj [("type", Json.str "string")])])
        ∧ pyGet props "priority" = some (Json.obj
            [("type", Json.str "integer"), ("minimum", Json.int 1),
             ("maximum", Json.int 4)]))
    ∧ (∀ (cfg : Config) (xml : String) (parsed : Option Json) (today : Int)
        (req : ChatRequest),
      Event.openaiCall req ∈
          (compile_task_payload_from_xml cfg xml parsed today).2 →
        req = mk_chat_request xml)
    ∧ (∀ (cfg : Config) (bx : Option String) (tid parsed : Option Json)
        (today : Int) (ss : Nat) (st : String) (sb : Option Json)
        (req : ChatRequest),
      Event.openaiCall req ∈
          (create_task_from_xml_handler cfg bx tid parsed today ss st
            sb).2 →
        req = mk_chat_request (bx.getD ""))
    ∧ (∀ (cfg : Config) (bx : Option String) (parsed : Option Json)
        (today : Int) (req : ChatRequest),
      Event.openaiCall req ∈
          (compile_task_from_xml_handler cfg bx parsed today).2 →
        req = mk_chat_request (bx.getD ""))
    ∧ (∀ (r : TaskRequest) (cfg : Config) (today : Int) (ss : Nat)
        (st : String) (sb : Option Json) (req : ChatRequest),
      Event.openaiCall req ∉ (add_task_handler r cfg today ss st sb).2) := by
  refine ⟨fun xml => ⟨rfl, rfl, rfl⟩,
    ⟨_, _, rfl, rfl, rfl, rfl, rfl, ⟨_, rfl, rfl⟩, ⟨_, rfl, rfl⟩,
     ⟨_, rfl, rfl⟩, rfl, rfl⟩, ?_, ?_, ?_, ?_⟩
  · intro cfg xml parsed today req h
    exact compile_req_of_mem cfg xml parsed today req h
  · intro cfg bx tid parsed today ss st sb req h
    exact create_req_of_mem cfg bx tid parsed today ss st sb req h
  · intro cfg bx parsed today req h
    unfold compile_task_from_xml_handler at h
    split at h
    · simp at h
    · exact compile_req_of_mem cfg (bx.getD "") parsed today req h
  · intro r cfg today ss st sb req h
    simp only [add_task_handler] at h
    rw [List.mem_singleton] at h
    cases h

/-- C8 witness: concrete backend calls found in the compile and create
traces carry the fixed schema-constrained, temperature-0 request. -/
theorem c8_witness :
    (mk_chat_request "x").temperature = 0
    ∧ mk_chat_request "x" = mk_chat_request "x"
    ∧ mk_chat_request "<i/>" = mk_chat_request "<i/>" := by
  refine ⟨(c8_backend_schema_and_sampling.1 "x").1, ?_, ?_⟩
  · exact c8_backend_schema_and_sampling.2.2.1 ⟨some "k", some "t"⟩ "x"
      none 0 (mk_chat_request "x") (List.mem_singleton.mpr rfl)
  · exact c8_backend_schema_and_sampling.2.2.2.1 ⟨some "k", some "t"⟩
      (some "<i/>") none (some (Json.obj [])) 0 200 "" none
      (mk_chat_request "<i/>") (List.mem_cons_self _ _)

end GptTodoist
